import Mathlib

/- Verification of the bus-route resolution and position-aggregation subsystem
of the Bussp backend.

The embedding translates, from the Python source:
  - the domain value types (src/core/models/coordinate.py, bus.py, route_shape.py),
  - the SPTrans wire DTOs (src/adapters/external/models/LineInfo.py,
    SPTransPosResp.py, sptrans_schemas.py),
  - the pure schema mappers (src/adapters/external/sptrans_mappers.py),
  - the SPTrans HTTP adapter (src/adapters/external/sptrans_adapter.py),
    modelled over an explicit script of HTTP responses and returning, besides
    the result, the final session state and the trace of outbound requests,
  - the GTFS shape repository (src/adapters/repositories/gtfs_repository_adapter.py),
    over an explicit relational dataset, returning also the trace of SQL lookups,
  - the aggregation service (src/core/services/route_service.py), parameterised
    by its two collaborators as the class is by its injected ports.

Floats of the source are modelled as rationals, datetimes as abstract integer
instants (both pydantic and datetime.fromisoformat parse the same wire string
to the same instant, so a copied timestamp is a copied integer here). -/

/- Domain value types. -/

/-- Geographic coordinate (src/core/models/coordinate.py). -/
structure Coordinate where
  latitude : ℚ
  longitude : ℚ
  deriving DecidableEq, Repr

/-- Logical route identity (src/core/models/bus.py, RouteIdentifier).
The source constrains bus_direction to Literal[1, 2]; here it is an integer
and theorems quantify over the two legal values where it matters. -/
structure RouteIdentifier where
  bus_line : String
  bus_direction : ℤ
  deriving DecidableEq, Repr

/-- Resolved provider route, current revision of src/core/models/bus.py
(route_id plus identifier plus circularity plus terminal name). -/
structure BusRoute where
  route_id : ℤ
  route : RouteIdentifier
  is_circular : Bool
  terminal_name : String
  deriving DecidableEq, Repr

/-- Bus position, current revision of src/core/models/bus.py (keyed by the
provider route id). -/
structure BusPosition where
  route_id : ℤ
  position : Coordinate
  time_updated : ℤ
  deriving DecidableEq, Repr

/-- One point of a route shape (src/core/models/route_shape.py).
distance_traveled is optional in the source and stays optional here. -/
structure RouteShapePoint where
  coordinate : Coordinate
  sequence : ℤ
  distance_traveled : Option ℚ
  deriving DecidableEq, Repr

/-- Full shape of a route (src/core/models/route_shape.py). -/
structure RouteShape where
  route : RouteIdentifier
  shape_id : String
  points : List RouteShapePoint
  deriving DecidableEq, Repr

/- SPTrans wire DTOs. Field names follow the wire aliases used by the
TypedDicts in src/adapters/external/models (the pydantic schemas in
sptrans_schemas.py alias the same wire fields): cl = route id, lc = circular,
lt = line number, sl = direction, tl = line suffix, tp = primary terminal,
ts = secondary terminal; p = vehicle tag, a = accessible, ta = timestamp,
py = latitude, px = longitude. -/

/-- SPTrans line-search entry (models/LineInfo.py and
sptrans_schemas.SPTransLineInfo). -/
structure SPTransLineInfo where
  cl : ℤ
  lc : Bool
  lt : String
  sl : ℤ
  tl : ℤ
  tp : String
  ts : String
  deriving DecidableEq, Repr

/-- SPTrans vehicle-position entry (models/SPTransPosResp.py and
sptrans_schemas.SPTransVehicle). py and px are decimal-degree floats per the
schema comments. -/
structure SPTransVehicle where
  p : String
  a : Bool
  ta : ℤ
  py : ℚ
  px : ℚ
  deriving DecidableEq, Repr

/-- SPTrans positions response body (hr = response time, vs = vehicles). -/
structure SPTransPositionsResponse where
  hr : String
  vs : List SPTransVehicle
  deriving DecidableEq, Repr

/- Pure schema mappers (src/adapters/external/sptrans_mappers.py). -/

/-- map_line_info_to_route_identifier: bus_line is the f-string
"{line_number}-{line_sufix}", direction is carried over. -/
def map_line_info_to_route_identifier (line_info : SPTransLineInfo) : RouteIdentifier :=
  { bus_line := line_info.lt ++ "-" ++ toString line_info.tl
    bus_direction := line_info.sl }

/-- map_line_info_to_bus_route: terminal_name is the primary terminal if
direction equals 1, otherwise the secondary terminal. -/
def map_line_info_to_bus_route (line_info : SPTransLineInfo) : BusRoute :=
  { route_id := line_info.cl
    route := map_line_info_to_route_identifier line_info
    is_circular := line_info.lc
    terminal_name := if line_info.sl = 1 then line_info.tp else line_info.ts }

/-- map_search_response_to_bus_route_list: the source builds the list with a
for-loop appending one mapped entry per item; the loop is kept as a fold. -/
def map_search_response_to_bus_route_list (data : List SPTransLineInfo) : List BusRoute :=
  data.foldl (fun acc item => acc ++ [map_line_info_to_bus_route item]) []

/-- map_vehicle_to_bus_position: copies latitude, longitude and timestamp
verbatim from the wire vehicle. -/
def map_vehicle_to_bus_position (vehicle : SPTransVehicle) (route_id : ℤ) : BusPosition :=
  { route_id := route_id
    position := { latitude := vehicle.py, longitude := vehicle.px }
    time_updated := vehicle.ta }

/-- map_positions_response_to_bus_positions: for-loop over data.vehicles,
kept as a fold. -/
def map_positions_response_to_bus_positions (data : SPTransPositionsResponse)
    (route_id : ℤ) : List BusPosition :=
  data.vs.foldl (fun acc v => acc ++ [map_vehicle_to_bus_position v route_id]) []

/- SPTrans HTTP adapter (src/adapters/external/sptrans_adapter.py).

The adapter is modelled over an explicit environment: each operation receives
the script of HTTP responses the transport would serve for its successive
requests (an entry of `none` models a request whose transport or parse raised
an exception inside the try block). Each operation returns the result (an
`Except`, where `.error` models a raised exception escaping the method), the
final session state, and the trace of outbound requests it issued. The methods
of the source never assign self.session_token, so the state is returned
unchanged by both query operations; only authenticate updates it.

The adapter file predates the current domain models: its BusRoute and
BusPosition constructor calls (lines 111-118 and 180-183) omit fields the
current pydantic models in core/models/bus.py require, so at run time those
constructions raise ValidationError. The embedding models the consequence at
each call site: get_route_details re-raises it wrapped in RuntimeError, so its
ok value is never produced, and get_bus_positions swallows it, so its
accumulated list is always empty. -/

/-- Exceptions escaping the adapter methods. Both are RuntimeError in the
source; the constructor distinguishes the two raise sites by message. -/
inductive SPError where
  /-- RuntimeError from the defensive not-authenticated check. -/
  | notAuthenticated
  /-- RuntimeError raised from (or wrapping a failure inside) the try block. -/
  | providerError
  deriving DecidableEq, Repr

/-- An outbound HTTP request to the SPTrans API, as issued by the adapter. -/
inductive SPRequest where
  /-- POST /Login/Autenticar with the configured token. -/
  | login (token : String)
  /-- GET /Posicao/Linha with codigoLinha. -/
  | posicaoLinha (codigoLinha : ℤ)
  /-- GET /Linha/BuscarLinhaSentido with termosBusca and sentido. -/
  | buscarLinhaSentido (termosBusca : String) (sentido : ℤ)
  deriving DecidableEq, Repr

/-- Mutable fields of SpTransAdapter relevant to the claims: the configured
api_token and the session_token (None initially, "authenticated" after a
successful handshake). -/
structure AdapterState where
  api_token : String
  session_token : Option String
  deriving DecidableEq, Repr

/-- Response to POST /Login/Autenticar: status code and body text. -/
structure AuthResponse where
  status : ℕ
  text : String
  deriving DecidableEq, Repr

/-- Response to GET /Linha/BuscarLinhaSentido: status code and parsed JSON
list (the source also guards "cl" not in line_info; every record of the typed
embedding carries cl, which matches a well-typed wire entry). -/
structure LineSearchHttpResponse where
  status : ℕ
  data : List SPTransLineInfo
  deriving DecidableEq, Repr

/-- Response to GET /Posicao/Linha: status code and parsed JSON body. -/
structure PositionsHttpResponse where
  status : ℕ
  body : SPTransPositionsResponse
  deriving DecidableEq, Repr

namespace SpTransAdapter

/-- authenticate (sptrans_adapter.py lines 48-71): POST /Login/Autenticar with
the configured token; on status 200 and body text "true" set session_token to
"authenticated" and return True, otherwise return False. Exceptions are caught
inside the method and also return False (an environment of `none` models a
raised transport exception), so the method never raises. -/
def authenticate (st : AdapterState) (env : Option AuthResponse) :
    Except SPError Bool × AdapterState × List SPRequest :=
  let req := SPRequest.login st.api_token
  match env with
  | none => (.ok false, st, [req])
  | some resp =>
    if resp.status = 200 ∧ resp.text = "true" then
      (.ok true, { st with session_token := some "authenticated" }, [req])
    else
      (.ok false, st, [req])

/-- Per-vehicle Coordinate construction inlined in get_bus_positions
(sptrans_adapter.py lines 113-116): latitude and longitude are the wire
values divided by 1,000,000. This construction succeeds — Coordinate has just
the two fields — before the enclosing BusPosition call fails (see
get_bus_positions). -/
def vehicle_coordinate (vehicle : SPTransVehicle) : Coordinate :=
  { latitude := vehicle.py / 1000000, longitude := vehicle.px / 1000000 }

/-- get_bus_positions (sptrans_adapter.py lines 73-125). Raises RuntimeError
before any request when the session is not authenticated. Otherwise issues
exactly one GET /Posicao/Linha; every failure inside the try block is caught
and the positions accumulated so far are returned. The environment scripts
the responses to successive requests; only the first entry can ever be
consumed. In this snapshot the accumulation is always empty: a transport
failure or non-200 status is swallowed before anything is appended, and on a
200 response the loop over the vehicles builds the first Coordinate
(vehicle_coordinate) and then calls BusPosition(route=..., position=...,
time_updated=...), which the current BusPosition model rejects for lack of
its required route_id field; the ValidationError is caught by the same except
clause and the still-empty list is returned — so both branches of the status
check yield the empty list and no position is ever producible. -/
def get_bus_positions (st : AdapterState) (bus_route : BusRoute)
    (env : List (Option PositionsHttpResponse)) :
    Except SPError (List BusPosition) × AdapterState × List SPRequest :=
  if st.session_token ≠ some "authenticated" then
    (.error .notAuthenticated, st, [])
  else
    let req := SPRequest.posicaoLinha bus_route.route_id
    match env.head? with
    | none => (.ok [], st, [req])
    | some none => (.ok [], st, [req])
    | some (some resp) =>
      if resp.status ≠ 200 then (.ok [], st, [req])
      else (.ok [], st, [req])

/-- get_route_details (sptrans_adapter.py lines 127-189). Raises RuntimeError
before any request when the session is not authenticated. Otherwise issues
exactly one GET /Linha/BuscarLinhaSentido; any non-200 status, empty result
list, or transport failure raises RuntimeError (re-raised wrapped by the
except clause). On a non-empty result the source takes only the first entry
and calls BusRoute(route_id=line_info["cl"], route=route), omitting the
is_circular and terminal_name fields the current BusRoute model requires;
pydantic raises ValidationError, which the except clause wraps in
RuntimeError — so in this snapshot every path through the try block raises
and the ok value is never produced. -/
def get_route_details (st : AdapterState) (route : RouteIdentifier)
    (env : List (Option LineSearchHttpResponse)) :
    Except SPError BusRoute × AdapterState × List SPRequest :=
  if st.session_token ≠ some "authenticated" then
    (.error .notAuthenticated, st, [])
  else
    let req := SPRequest.buscarLinhaSentido route.bus_line route.bus_direction
    match env.head? with
    | none => (.error .providerError, st, [req])
    | some none => (.error .providerError, st, [req])
    | some (some resp) =>
      if resp.status ≠ 200 then (.error .providerError, st, [req])
      else
        match resp.data with
        | [] => (.error .providerError, st, [req])
        | _ :: _ => (.error .providerError, st, [req])

end SpTransAdapter

/- Route aggregation service (src/core/services/route_service.py). The class
holds its two collaborators; the embedding passes them as functions. -/

namespace RouteService

/-- get_bus_positions (route_service.py lines 28-48): loop over the input
route keys, one provider query each, extending one flat accumulator; an
exception from the provider propagates and aborts the whole call. The
route-key and position types are parameters, as the method merely forwards
each key to the injected provider. -/
def get_bus_positions {ρ π : Type} (provider : ρ → Except SPError (List π)) :
    List ρ → Except SPError (List π)
  | [] => .ok []
  | r :: rest =>
    match provider r with
    | .error e => .error e
    | .ok ps =>
      match get_bus_positions provider rest with
      | .error e => .error e
      | .ok qs => .ok (ps ++ qs)

/-- get_route_shapes (route_service.py lines 65-80): loop over the input
identifiers in order, one repository query each, appending only the shapes
that were found. Returns the shapes and the trace of repository queries. -/
def get_route_shapes (repo : RouteIdentifier → Option RouteShape) :
    List RouteIdentifier → List RouteShape × List RouteIdentifier
  | [] => ([], [])
  | route :: rest =>
    let shape := repo route
    let next := get_route_shapes repo rest
    match shape with
    | some s => (s :: next.1, route :: next.2)
    | none => (next.1, route :: next.2)

end RouteService

/- GTFS shape repository (src/adapters/repositories/gtfs_repository_adapter.py),
over an explicit relational dataset. -/

/-- One row of the GTFS trips table (columns used by the adapter). -/
structure TripRow where
  route_id : String
  direction_id : ℤ
  shape_id : String
  deriving DecidableEq, Repr

/-- One row of the GTFS shapes table (columns used by the adapter);
shape_dist_traveled is nullable. -/
structure ShapeRow where
  shape_id : String
  shape_pt_lat : ℚ
  shape_pt_lon : ℚ
  shape_pt_sequence : ℤ
  shape_dist_traveled : Option ℚ
  deriving DecidableEq, Repr

/-- The GTFS SQLite database: the two tables the adapter reads. -/
structure GTFSDb where
  trips : List TripRow
  shapes : List ShapeRow
  deriving DecidableEq, Repr

/-- A SQL lookup issued by the adapter. -/
inductive GTFSQuery where
  /-- SELECT DISTINCT shape_id FROM trips WHERE route_id AND direction_id, LIMIT 1. -/
  | shapeIdLookup (route_id : String) (direction_id : ℤ)
  /-- SELECT points FROM shapes WHERE shape_id ORDER BY shape_pt_sequence ASC. -/
  | shapePoints (shape_id : String)
  deriving DecidableEq, Repr

/-- Row comparison by shape_pt_sequence, the ORDER BY key of the points query. -/
def shapeRowLE (a b : ShapeRow) : Prop :=
  a.shape_pt_sequence ≤ b.shape_pt_sequence

instance : DecidableRel shapeRowLE := fun _ _ => Int.decLe _ _

instance : IsTotal ShapeRow shapeRowLE :=
  ⟨fun a b => Int.le_total a.shape_pt_sequence b.shape_pt_sequence⟩

instance : IsTrans ShapeRow shapeRowLE :=
  ⟨fun _ _ _ h1 h2 => le_trans h1 h2⟩

/-- Row-to-domain-point construction from the adapter's loop (lines 60-69):
every column, the nullable distance included, is copied unchanged. -/
def shape_row_to_point (row : ShapeRow) : RouteShapePoint :=
  { coordinate := { latitude := row.shape_pt_lat, longitude := row.shape_pt_lon }
    sequence := row.shape_pt_sequence
    distance_traveled := row.shape_dist_traveled }

namespace GTFSRepositoryAdapter

/-- get_route_shape (gtfs_repository_adapter.py lines 17-78). Translates the
domain direction 1/2 to the dataset direction 0/1 by subtracting one, looks up
one trip row for (bus_line, direction_id) (LIMIT 1 on the table), and if one
is found, fetches all shape rows for its shape_id ordered by sequence
ascending. No trip row, or zero points, yields none. Returns the result and
the trace of SQL lookups. -/
def get_route_shape (db : GTFSDb) (route : RouteIdentifier) :
    Option RouteShape × List GTFSQuery :=
  let direction_id : ℤ := route.bus_direction - 1
  let q1 := GTFSQuery.shapeIdLookup route.bus_line direction_id
  match (db.trips.filter fun t =>
      t.route_id = route.bus_line ∧ t.direction_id = direction_id).head? with
  | none => (none, [q1])
  | some trip =>
    let q2 := GTFSQuery.shapePoints trip.shape_id
    let rows := List.insertionSort shapeRowLE
      (db.shapes.filter fun s => s.shape_id = trip.shape_id)
    let points := rows.map shape_row_to_point
    if points.isEmpty then (none, [q1, q2])
    else (some { route := route, shape_id := trip.shape_id, points := points }, [q1, q2])

end GTFSRepositoryAdapter

/- Concrete inputs used by witnesses and counterexamples. -/

/-- Dataset for the C4 witness: one trip for line 8000-10 direction_id 0
pointing at shape S1, whose two point rows are stored out of sequence order,
one with an absent distance; plus one row of an unrelated shape. -/
def c4_db : GTFSDb :=
  { trips := [⟨"8000-10", 0, "S1"⟩]
    shapes := [⟨"S1", -3, -5, 2, none⟩, ⟨"S1", -2, -4, 1, some 7⟩, ⟨"OTHER", 0, 0, 1, some 1⟩] }

/-- Route queried by the C4 witness. -/
def c4_route : RouteIdentifier := ⟨"8000-10", 1⟩

/-- The shape c4_db yields for c4_route: rows of S1 sorted by sequence,
distances passed through (some 7 and none). -/
def c4_shape0 : RouteShape :=
  { route := c4_route
    shape_id := "S1"
    points := [⟨⟨-2, -4⟩, 1, some 7⟩, ⟨⟨-3, -5⟩, 2, none⟩] }

/-- Dataset with no trip row for line 8000-10. -/
def c4_db_no_trip : GTFSDb := { trips := [], shapes := [⟨"S1", -3, -5, 2, none⟩] }

/-- Dataset whose only matching trip points at a shape id with zero rows. -/
def c4_db_orphan : GTFSDb := { trips := [⟨"8000-10", 0, "S9"⟩], shapes := [⟨"S1", -3, -5, 2, none⟩] }

/-- Adapter state with an authenticated session, for concrete evaluations. -/
def c1_state : AdapterState := ⟨"tok", some "authenticated"⟩

/-- A well-formed line-search entry for line 8000. -/
def c1_line_ok : SPTransLineInfo := ⟨100, false, "8000", 1, 10, "Term A", "Term B"⟩

/-- Response script: first response is the unauthorized signal (HTTP 401),
the second would be a successful search result. -/
def c1_env : List (Option LineSearchHttpResponse) :=
  [some ⟨401, []⟩, some ⟨200, [c1_line_ok]⟩]

/-- Route identifiers for the C2 scenario. -/
def c2_rid1 : RouteIdentifier := ⟨"8000", 1⟩

/-- Second route identifier for the C2 scenario. -/
def c2_rid2 : RouteIdentifier := ⟨"9000", 1⟩

/-- One active vehicle on the second route. -/
def c2_vehicle : SPTransVehicle := ⟨"v1", true, 50, -23, -46⟩

/-- Response script per resolved route: the query for provider id 1 fails with
HTTP 500; the query for any other id succeeds with one vehicle. -/
def c2_env (br : BusRoute) : List (Option PositionsHttpResponse) :=
  if br.route_id = 1 then [some ⟨500, ⟨"h", []⟩⟩] else [some ⟨200, ⟨"h", [c2_vehicle]⟩⟩]

/-- The injected provider of the production wiring: the SpTrans adapter with
an authenticated session, each route served by its scripted responses. -/
def c2_provider (br : BusRoute) : Except SPError (List BusPosition) :=
  (SpTransAdapter.get_bus_positions c1_state br (c2_env br)).1

/-- First resolved route of the C2 scenario, in the current four-field model. -/
def c2_route1 : BusRoute := ⟨1, c2_rid1, false, "T1"⟩

/-- Second resolved route of the C2 scenario. -/
def c2_route2 : BusRoute := ⟨2, c2_rid2, false, "T2"⟩

/-- The spec example entry: lt "8000", tl 10, sl 1, tp "Term A", ts "Term B". -/
def c6_line_info : SPTransLineInfo := ⟨99, false, "8000", 1, 10, "Term A", "Term B"⟩

/-- A 200 response whose result list has two entries. -/
def c7_two_resp : LineSearchHttpResponse := ⟨200, [c1_line_ok, c6_line_info]⟩

/-- A vehicle entry carrying decimal-degree coordinates, as the positions
endpoint returns them: py (latitude) -23.5, px (longitude) -46.5. -/
def c8_vehicle : SPTransVehicle := ⟨"88888", true, 1700000000, -47 / 2, -93 / 2⟩

/-- A failing handshake response. -/
def c9_fail_resp : AuthResponse := ⟨401, "false"⟩

/-- A freshly constructed, unauthenticated client state. -/
def c9_init : AdapterState := ⟨"tok", none⟩
/- Theorems. -/

/-- Helper: the first SQL lookup of get_route_shape is always the trips lookup
with the bus_line and the domain direction minus one. -/
theorem gtfs_first_query (db : GTFSDb) (route : RouteIdentifier) :
    (GTFSRepositoryAdapter.get_route_shape db route).2.head? =
      some (GTFSQuery.shapeIdLookup route.bus_line (route.bus_direction - 1)) := by
  unfold GTFSRepositoryAdapter.get_route_shape
  dsimp only
  split
  · rfl
  · split <;> rfl

/-- C3: for every input list of route identifiers, get_route_shapes queries
the shape repository once per identifier in input order (the query trace is
exactly the input list) and returns exactly the shapes that were found,
preserving the relative order of the found inputs and dropping not-found
identifiers (the result is the filterMap of the repository over the input);
the empty input yields the empty output with zero repository calls. -/
theorem C3_get_route_shapes_found_in_order (repo : RouteIdentifier → Option RouteShape)
    (routes : List RouteIdentifier) :
    (RouteService.get_route_shapes repo routes).1 = routes.filterMap repo ∧
    (RouteService.get_route_shapes repo routes).2 = routes ∧
    RouteService.get_route_shapes repo [] = ([], []) := by
  refine ⟨?_, ?_, rfl⟩
  · induction routes with
    | nil => rfl
    | cons r rest ih =>
      simp only [RouteService.get_route_shapes, List.filterMap_cons]
      cases h : repo r <;> simp [h, ih]
  · induction routes with
    | nil => rfl
    | cons r rest ih =>
      simp only [RouteService.get_route_shapes]
      cases h : repo r <;> simp [h, ih]

/-- C5: the shape-repository lookup translates the domain direction to the
dataset encoding by subtracting one: a RouteIdentifier with direction 1 issues
its trips lookup with direction_id 0, and direction 2 with direction_id 1. -/
theorem C5_direction_translation (db : GTFSDb) (line : String) :
    (GTFSRepositoryAdapter.get_route_shape db ⟨line, 1⟩).2.head? =
      some (GTFSQuery.shapeIdLookup line 0) ∧
    (GTFSRepositoryAdapter.get_route_shape db ⟨line, 2⟩).2.head? =
      some (GTFSQuery.shapeIdLookup line 1) := by
  constructor
  · have h := gtfs_first_query db ⟨line, 1⟩
    norm_num at h
    exact h
  · have h := gtfs_first_query db ⟨line, 2⟩
    norm_num at h
    exact h

/-- C10: calling get_route_details or get_bus_positions on a client whose
session state is not authenticated raises RuntimeError before issuing any
outbound request (the request trace is empty, so in particular no
authentication request is issued on the behalf of the caller), and the session
state is returned unchanged. -/
theorem C10_operations_require_prior_authentication (st : AdapterState)
    (route : RouteIdentifier) (br : BusRoute)
    (envL : List (Option LineSearchHttpResponse))
    (envP : List (Option PositionsHttpResponse))
    (hst : st.session_token ≠ some "authenticated") :
    SpTransAdapter.get_route_details st route envL = (.error .notAuthenticated, st, []) ∧
    SpTransAdapter.get_bus_positions st br envP = (.error .notAuthenticated, st, []) := by
  constructor
  · unfold SpTransAdapter.get_route_details
    simp [hst]
  · unfold SpTransAdapter.get_bus_positions
    simp [hst]

/-- C10 witness: a freshly constructed client (session_token None) rejects
both operations with the not-authenticated error and an empty request trace. -/
theorem C10_operations_require_prior_authentication_witness :
    SpTransAdapter.get_route_details ⟨"tok", none⟩ ⟨"8000", 1⟩ [] =
      (.error .notAuthenticated, ⟨"tok", none⟩, []) ∧
    SpTransAdapter.get_bus_positions ⟨"tok", none⟩ ⟨1234, ⟨"8000", 1⟩, false, "T"⟩ [] =
      (.error .notAuthenticated, ⟨"tok", none⟩, []) :=
  C10_operations_require_prior_authentication ⟨"tok", none⟩ ⟨"8000", 1⟩
    ⟨1234, ⟨"8000", 1⟩, false, "T"⟩ [] [] (by decide)

/-- C4: get_route_shape returns none when no trip row matches the (line,
direction) pair, and also when the matched shape id has zero point rows;
when it returns a shape, the points list is non-empty, sorted ascending by
sequence, and every returned point copies its row verbatim, the optional
distance-traveled value included (absent stays absent). -/
theorem C4_route_shape_none_or_sorted_nonempty (db : GTFSDb) (route : RouteIdentifier) :
    ((db.trips.filter fun t =>
        t.route_id = route.bus_line ∧ t.direction_id = route.bus_direction - 1).head? = none →
      (GTFSRepositoryAdapter.get_route_shape db route).1 = none) ∧
    (∀ trip, (db.trips.filter fun t =>
        t.route_id = route.bus_line ∧ t.direction_id = route.bus_direction - 1).head? =
          some trip →
      (db.shapes.filter fun s => s.shape_id = trip.shape_id) = [] →
      (GTFSRepositoryAdapter.get_route_shape db route).1 = none) ∧
    (∀ shape, (GTFSRepositoryAdapter.get_route_shape db route).1 = some shape →
      shape.points ≠ [] ∧
      List.Sorted (fun pt qt : RouteShapePoint => pt.sequence ≤ qt.sequence) shape.points ∧
      ∀ pt ∈ shape.points, ∃ row ∈ db.shapes,
        row.shape_id = shape.shape_id ∧
        pt.coordinate.latitude = row.shape_pt_lat ∧
        pt.coordinate.longitude = row.shape_pt_lon ∧
        pt.sequence = row.shape_pt_sequence ∧
        pt.distance_traveled = row.shape_dist_traveled) := by
  unfold GTFSRepositoryAdapter.get_route_shape
  dsimp only
  refine ⟨?_, ?_, ?_⟩
  · intro h
    rw [h]
  · intro trip h hemp
    rw [h]
    dsimp only
    rw [hemp]
    rfl
  · intro shape h
    cases hsc : (db.trips.filter fun t =>
        t.route_id = route.bus_line ∧ t.direction_id = route.bus_direction - 1).head? with
    | none =>
      rw [hsc] at h
      exact absurd h (by simp)
    | some trip =>
      rw [hsc] at h
      dsimp only at h
      by_cases hemp : (List.map shape_row_to_point (List.insertionSort shapeRowLE
          (db.shapes.filter fun s => s.shape_id = trip.shape_id))).isEmpty = true
      · rw [if_pos hemp] at h
        exact absurd h (by simp)
      · rw [if_neg hemp] at h
        dsimp only at h
        injection h with h
        subst h
        refine ⟨?_, ?_, ?_⟩
        · intro hnil
          rw [← List.isEmpty_iff] at hnil
          exact hemp hnil
        · exact (List.sorted_insertionSort shapeRowLE _).map
            shape_row_to_point (fun a b hab => hab)
        · intro pt hpt
          rw [List.mem_map] at hpt
          obtain ⟨row, hrow, hpt⟩ := hpt
          rw [List.mem_insertionSort] at hrow
          rw [List.mem_filter] at hrow
          subst hpt
          refine ⟨row, hrow.1, ?_, rfl, rfl, rfl, rfl⟩
          exact of_decide_eq_true hrow.2

/-- C4 witness: on c4_db the returned shape has non-empty points sorted by
sequence; on a dataset without a matching trip, and on one whose shape id has
zero rows, the lookup returns none. -/
theorem C4_route_shape_witness :
    (c4_shape0.points ≠ [] ∧
      List.Sorted (fun pt qt : RouteShapePoint => pt.sequence ≤ qt.sequence) c4_shape0.points) ∧
    (GTFSRepositoryAdapter.get_route_shape c4_db_no_trip c4_route).1 = none ∧
    (GTFSRepositoryAdapter.get_route_shape c4_db_orphan c4_route).1 = none :=
  ⟨⟨((C4_route_shape_none_or_sorted_nonempty c4_db c4_route).2.2 c4_shape0 (by decide)).1,
    ((C4_route_shape_none_or_sorted_nonempty c4_db c4_route).2.2 c4_shape0 (by decide)).2.1⟩,
   (C4_route_shape_none_or_sorted_nonempty c4_db_no_trip c4_route).1 (by decide),
   (C4_route_shape_none_or_sorted_nonempty c4_db_orphan c4_route).2.1
     ⟨"8000-10", 0, "S9"⟩ (by decide) (by decide)⟩

/-- C1 amended: the client never re-authenticates and never retries. With an
authenticated session each operation issues exactly one outbound request (the
trace is the single request with the original parameters), the outcome depends
only on the first scripted response (later responses are never consumed), and
a first response with HTTP status 401 — the unauthorized signal — makes
get_route_details raise ProviderError at once with the session state
unchanged, while get_bus_positions catches the failure and returns the empty
accumulated list with the session state unchanged. -/
theorem C1_single_attempt_no_reauth (st : AdapterState) (route : RouteIdentifier)
    (br : BusRoute) (envL : List (Option LineSearchHttpResponse))
    (envP : List (Option PositionsHttpResponse))
    (hst : st.session_token = some "authenticated") :
    (SpTransAdapter.get_route_details st route envL).2.2 =
      [.buscarLinhaSentido route.bus_line route.bus_direction] ∧
    (SpTransAdapter.get_bus_positions st br envP).2.2 = [.posicaoLinha br.route_id] ∧
    (∀ x rest, SpTransAdapter.get_route_details st route (x :: rest) =
      SpTransAdapter.get_route_details st route [x]) ∧
    (∀ x rest, SpTransAdapter.get_bus_positions st br (x :: rest) =
      SpTransAdapter.get_bus_positions st br [x]) ∧
    (∀ resp rest, envL = some resp :: rest → resp.status = 401 →
      SpTransAdapter.get_route_details st route envL =
        (.error .providerError, st, [.buscarLinhaSentido route.bus_line route.bus_direction])) ∧
    (∀ resp rest, envP = some resp :: rest → resp.status = 401 →
      SpTransAdapter.get_bus_positions st br envP =
        (.ok [], st, [.posicaoLinha br.route_id])) := by
  have hne : ¬ st.session_token ≠ some "authenticated" := by simp [hst]
  refine ⟨?_, ?_, ?_, ?_, ?_, ?_⟩
  · unfold SpTransAdapter.get_route_details
    rw [if_neg hne]
    dsimp only
    split
    · rfl
    · rfl
    · split
      · rfl
      · split <;> rfl
  · unfold SpTransAdapter.get_bus_positions
    rw [if_neg hne]
    dsimp only
    split
    · rfl
    · rfl
    · split <;> rfl
  · intro x rest
    rfl
  · intro x rest
    rfl
  · intro resp rest henv h401
    subst henv
    unfold SpTransAdapter.get_route_details
    rw [if_neg hne]
    simp only [List.head?_cons]
    rw [if_pos (by rw [h401]; decide)]
  · intro resp rest henv h401
    subst henv
    unfold SpTransAdapter.get_bus_positions
    rw [if_neg hne]
    simp only [List.head?_cons]
    rw [if_pos (by rw [h401]; decide)]

/-- C1 witness: on the concrete 401-then-200 script the trace of
get_route_details is the single search request, and a 401 first response to
get_bus_positions yields ok with the empty list and the single query request. -/
theorem C1_single_attempt_witness :
    (SpTransAdapter.get_route_details c1_state ⟨"8000", 1⟩ c1_env).2.2 =
      [.buscarLinhaSentido "8000" 1] ∧
    SpTransAdapter.get_bus_positions c1_state ⟨1234, ⟨"8000", 1⟩, false, "T"⟩
        [some ⟨401, ⟨"h", []⟩⟩] =
      (.ok [], c1_state, [.posicaoLinha 1234]) :=
  ⟨(C1_single_attempt_no_reauth c1_state ⟨"8000", 1⟩ ⟨1234, ⟨"8000", 1⟩, false, "T"⟩ c1_env
      [some ⟨401, ⟨"h", []⟩⟩] rfl).1,
   (C1_single_attempt_no_reauth c1_state ⟨"8000", 1⟩ ⟨1234, ⟨"8000", 1⟩, false, "T"⟩ c1_env
      [some ⟨401, ⟨"h", []⟩⟩] rfl).2.2.2.2.2 ⟨401, ⟨"h", []⟩⟩ [] rfl rfl⟩

/-- C1 counterexample: the first response is the unauthorized signal and the
scripted second response would succeed; the claim requires re-authentication
and a successful retry, but the operation fails at once with ProviderError,
having issued exactly one request — the queued successful response is never
consumed and no login request ever appears in the trace. -/
theorem C1_counterexample :
    SpTransAdapter.get_route_details c1_state ⟨"8000", 1⟩ c1_env =
      (.error .providerError, c1_state, [.buscarLinhaSentido "8000" 1]) := by
  rfl

/-- Helper: a loop that appends one mapped element per item equals map. -/
theorem foldl_append_singleton_eq_map {α β : Type} (f : α → β) (data : List α)
    (acc : List β) :
    data.foldl (fun acc2 x => acc2 ++ [f x]) acc = acc ++ data.map f := by
  induction data generalizing acc with
  | nil => simp
  | cons x xs ih => simp [ih]

/-- C2 amended: at the service level an exception from the provider aborts the
whole aggregation with no partial list (the first failing per-route query
makes the call raise, whatever was accumulated before), but the SpTrans
adapter never raises on a per-route query: every failure inside its try block
— a failed HTTP exchange as well as the per-vehicle BusPosition construction,
which the current model rejects for lack of its required route_id — is caught
and the accumulated positions, always empty in this snapshot, are returned as
ok. The composed getBusPositions thus neither raises on a hard-failed query
nor returns the aggregation: every route contributes zero positions. -/
theorem C2_service_all_or_nothing_adapter_swallows {ρ π : Type}
    (provider : ρ → Except SPError (List π)) (pre : List ρ) (r : ρ) (post : List ρ)
    (e : SPError) (st : AdapterState) (br : BusRoute)
    (env : List (Option PositionsHttpResponse))
    (hpre : ∀ j ∈ pre, ∃ l, provider j = .ok l) (herr : provider r = .error e)
    (hst : st.session_token = some "authenticated") :
    RouteService.get_bus_positions provider (pre ++ r :: post) = .error e ∧
    (SpTransAdapter.get_bus_positions st br env).1 = .ok [] := by
  constructor
  · induction pre with
    | nil => simp [RouteService.get_bus_positions, herr]
    | cons j js ih =>
      obtain ⟨l, hl⟩ := hpre j (by simp)
      have ih2 := ih (fun k hk => hpre k (by simp [hk]))
      simp [RouteService.get_bus_positions, hl, ih2]
  · unfold SpTransAdapter.get_bus_positions
    rw [if_neg (by simp [hst])]
    dsimp only
    split
    · rfl
    · rfl
    · split <;> rfl

/-- C2 counterexample: the first per-route query hard-fails (HTTP 500, and no
retry exists) while the second route reports one active vehicle; the claim
requires the whole call to raise ProviderError, but the aggregated call
returns ok — and not the full aggregation either (the second route's position
is lost to the swallowed BusPosition construction failure) but the empty
list. -/
theorem C2_counterexample :
    RouteService.get_bus_positions c2_provider [c2_route1, c2_route2] = .ok [] := by
  rfl

/-- C2 witness: a provider failing on the route keyed 1 after succeeding on
the route keyed 0 makes the service raise that error, and the adapter result
on a failing response is ok with the empty list. -/
theorem C2_service_all_or_nothing_witness :
    RouteService.get_bus_positions
        (fun k : ℤ => if k = 0 then .ok [c2_vehicle] else .error .providerError)
        ([0] ++ 1 :: []) = .error .providerError ∧
    (SpTransAdapter.get_bus_positions c1_state c2_route1 (c2_env c2_route1)).1 = .ok [] :=
  C2_service_all_or_nothing_adapter_swallows
    (fun k : ℤ => if k = 0 then .ok [c2_vehicle] else .error .providerError)
    [0] 1 [] .providerError c1_state c2_route1 (c2_env c2_route1)
    (fun j hj => ⟨[c2_vehicle], by
      have hj0 : j = 0 := by simpa using hj
      simp [hj0]⟩)
    rfl rfl

/-- C6: the search-entry mapper concatenates the provider's line-number and
line-suffix fields into busLine as "{number}-{suffix}", carries the provider
route id over, and selects the terminal name by direction: direction 1 takes
the primary terminal field, direction 2 the secondary one. -/
theorem C6_mapper_busline_and_terminal (li : SPTransLineInfo) :
    (map_line_info_to_bus_route li).route.bus_line = li.lt ++ "-" ++ toString li.tl ∧
    (map_line_info_to_bus_route li).route_id = li.cl ∧
    (map_line_info_to_route_identifier li).bus_line = li.lt ++ "-" ++ toString li.tl ∧
    (li.sl = 1 → (map_line_info_to_bus_route li).terminal_name = li.tp) ∧
    (li.sl = 2 → (map_line_info_to_bus_route li).terminal_name = li.ts) := by
  refine ⟨rfl, rfl, rfl, ?_, ?_⟩
  · intro h
    unfold map_line_info_to_bus_route
    dsimp only
    rw [if_pos h]
  · intro h
    unfold map_line_info_to_bus_route
    dsimp only
    rw [if_neg (by rw [h]; decide)]

/-- C6 witness: the example entry maps to busLine "8000-10" and, having
direction 1, the primary terminal "Term A". -/
theorem C6_mapper_witness :
    (map_line_info_to_bus_route c6_line_info).route.bus_line = "8000-10" ∧
    (map_line_info_to_bus_route c6_line_info).terminal_name = "Term A" :=
  ⟨((C6_mapper_busline_and_terminal c6_line_info).1).trans (by decide),
   (C6_mapper_busline_and_terminal c6_line_info).2.2.2.1 rfl⟩

/-- C7 amended: the standalone search-response mapper maps every entry of the
provider response, in order, into the result (the empty response maps to the
empty list); but the provider operation actually wired in, get_route_details,
never returns resolved routes at all in this snapshot: it raises ProviderError
when a 200 response carries an empty result list (provider reports no
matches), and on a non-empty list it takes only the first entry, whose
legacy two-field BusRoute construction the current model rejects, so that
path raises ProviderError as well. -/
theorem C7_mapper_maps_all_details_raises_on_empty (data : List SPTransLineInfo)
    (st : AdapterState) (route : RouteIdentifier) (resp : LineSearchHttpResponse)
    (rest : List (Option LineSearchHttpResponse))
    (hst : st.session_token = some "authenticated") (h200 : resp.status = 200) :
    map_search_response_to_bus_route_list data = data.map map_line_info_to_bus_route ∧
    (resp.data = [] →
      (SpTransAdapter.get_route_details st route (some resp :: rest)).1 =
        .error .providerError) ∧
    (∀ li tail, resp.data = li :: tail →
      (SpTransAdapter.get_route_details st route (some resp :: rest)).1 =
        .error .providerError) := by
  have hne : ¬ st.session_token ≠ some "authenticated" := by simp [hst]
  have h200ne : ¬ resp.status ≠ 200 := by simp [h200]
  refine ⟨?_, ?_, ?_⟩
  · simpa using foldl_append_singleton_eq_map map_line_info_to_bus_route data []
  · intro hempty
    unfold SpTransAdapter.get_route_details
    rw [if_neg hne]
    simp only [List.head?_cons]
    rw [if_neg h200ne, hempty]
  · intro li tail hdata
    unfold SpTransAdapter.get_route_details
    rw [if_neg hne]
    simp only [List.head?_cons]
    rw [if_neg h200ne, hdata]

/-- C7 witness: a singleton response maps to the one mapped entry, and
get_route_details on a two-entry 200 response raises on the rejected BusRoute
construction of its first entry. -/
theorem C7_mapper_maps_all_witness :
    map_search_response_to_bus_route_list [c1_line_ok] =
      [c1_line_ok].map map_line_info_to_bus_route ∧
    (SpTransAdapter.get_route_details c1_state ⟨"8000", 1⟩ [some c7_two_resp]).1 =
      .error .providerError :=
  ⟨(C7_mapper_maps_all_details_raises_on_empty [c1_line_ok] c1_state ⟨"8000", 1⟩
      c7_two_resp [] rfl rfl).1,
   (C7_mapper_maps_all_details_raises_on_empty [c1_line_ok] c1_state ⟨"8000", 1⟩
      c7_two_resp [] rfl rfl).2.2 c1_line_ok [c6_line_info] rfl⟩

/-- C7 counterexample: with an authenticated session, a 200 response whose
result list is empty — the provider reporting no matches — makes the route
resolution operation raise ProviderError instead of returning an empty list. -/
theorem C7_counterexample :
    (SpTransAdapter.get_route_details c1_state ⟨"8000", 1⟩ [some ⟨200, []⟩]).1 =
      .error .providerError := by
  rfl

/-- C8: on a decimal-degree vehicle entry the adapter's inline Coordinate
construction divides latitude and longitude by 1,000,000 (yielding
-0.0000235, not the latitude -23.5 the wire carried), while the standalone
mapper map_vehicle_to_bus_position copies latitude, longitude and timestamp
verbatim as the claim states. -/
theorem C8_adapter_scales_mapper_copies :
    (SpTransAdapter.vehicle_coordinate c8_vehicle).latitude = -47 / 2000000 ∧
    (SpTransAdapter.vehicle_coordinate c8_vehicle).latitude ≠ c8_vehicle.py ∧
    (SpTransAdapter.vehicle_coordinate c8_vehicle).longitude ≠ c8_vehicle.px ∧
    (map_vehicle_to_bus_position c8_vehicle 1234).position.latitude = c8_vehicle.py ∧
    (map_vehicle_to_bus_position c8_vehicle 1234).position.longitude = c8_vehicle.px ∧
    (map_vehicle_to_bus_position c8_vehicle 1234).time_updated = c8_vehicle.ta := by
  refine ⟨?_, ?_, ?_, rfl, rfl, rfl⟩ <;>
    norm_num [SpTransAdapter.vehicle_coordinate, c8_vehicle]

/-- C9 amended: a handshake response with status 200 and body text "true"
sets the session state to authenticated and returns True; any other response,
and a raised transport exception, return False — the method never raises —
and leave the session state unchanged (an unauthenticated session remains
unauthenticated). -/
theorem C9_authenticate_success_or_false (st : AdapterState) (resp : AuthResponse) :
    (resp.status = 200 → resp.text = "true" →
      SpTransAdapter.authenticate st (some resp) =
        (.ok true, { st with session_token := some "authenticated" },
          [.login st.api_token])) ∧
    (¬(resp.status = 200 ∧ resp.text = "true") →
      SpTransAdapter.authenticate st (some resp) =
        (.ok false, st, [.login st.api_token])) ∧
    SpTransAdapter.authenticate st none = (.ok false, st, [.login st.api_token]) := by
  refine ⟨?_, ?_, rfl⟩
  · intro h1 h2
    unfold SpTransAdapter.authenticate
    dsimp only
    rw [if_pos ⟨h1, h2⟩]
  · intro h
    unfold SpTransAdapter.authenticate
    dsimp only
    rw [if_neg h]

/-- C9 witness: on a fresh client a 200/"true" handshake authenticates the
session and returns True; a 401 handshake returns False with the state still
unauthenticated. -/
theorem C9_authenticate_witness :
    SpTransAdapter.authenticate ⟨"tok", none⟩ (some ⟨200, "true"⟩) =
      (.ok true, ⟨"tok", some "authenticated"⟩, [.login "tok"]) ∧
    SpTransAdapter.authenticate ⟨"tok", none⟩ (some ⟨401, "denied"⟩) =
      (.ok false, ⟨"tok", none⟩, [.login "tok"]) :=
  ⟨(C9_authenticate_success_or_false ⟨"tok", none⟩ ⟨200, "true"⟩).1 rfl rfl,
   (C9_authenticate_success_or_false ⟨"tok", none⟩ ⟨401, "denied"⟩).2.1 (by decide)⟩

/-- C9 counterexample: on a failed handshake the claim requires a raised
ProviderError; instead authenticate returns normally with the ok value False
— in particular the result is not the error the claim requires — and the
session state is unchanged. -/
theorem C9_counterexample :
    (SpTransAdapter.authenticate c9_init (some c9_fail_resp)).1 = .ok false ∧
    (SpTransAdapter.authenticate c9_init (some c9_fail_resp)).1 ≠
      .error SPError.providerError ∧
    (SpTransAdapter.authenticate c9_init (some c9_fail_resp)).2.1 = c9_init := by
  refine ⟨rfl, ?_, rfl⟩
  intro h
  rw [show (SpTransAdapter.authenticate c9_init (some c9_fail_resp)).1 =
    Except.ok false from rfl] at h
  exact Except.noConfusion h
